import Mathlib

/-!
# Verification of the EfiEventLib event/timer wrapper library

Shallow embedding of `Library/EfiEventLib/EfiEventLib.c`.

The library is a thin adapter over the UEFI boot-services table `gBS`.
We model the platform as a record of response functions (`Platform`):
for each boot service, the record gives the status (and out-parameter
values) the platform would return for given arguments.  Each library
function is embedded as a Lean function taking a `Platform` and the C
arguments, returning its C result paired with the list of platform
calls it performed, in order.  This makes claims such as "the event is
closed exactly once" or "no platform call is performed" directly
statable as facts about the returned trace.

Pointers (`EFI_EVENT`, `EFI_EVENT_NOTIFY`, `VOID *`) are modelled as
`Nat`, with `0` standing for `NULL`.  `EFI_STATUS` is a `Nat`; the C
macro `EFI_ERROR` tests the high bit of the `UINTN`, modelled as
`2^63 ≤ s`.  The six well-known event-group GUID constants are external
distinct constants (declared in MdePkg, not in this repository); they
are modelled as the six constructors of an inductive type.

`ASSERT` / `ASSERT_EFI_ERROR` are debug-only consistency checks that
compile to nothing in release builds and never alter the data or
control flow of these functions; the embedding models the release
(assert-free) semantics, which is also the behaviour the specification
describes.
-/

abbrev Handle := Nat
abbrev Status := Nat
abbrev NotifyFn := Nat
abbrev Ctx := Nat

def MAX_BIT : Nat := 2 ^ 63

def EFI_ERROR (s : Status) : Bool := decide (MAX_BIT ≤ s)

def EFI_SUCCESS : Status := 0

def EFI_INVALID_PARAMETER : Status := MAX_BIT + 2

def EFI_UNSUPPORTED : Status := MAX_BIT + 3

def EFI_NOT_READY : Status := MAX_BIT + 6

def EFI_OUT_OF_RESOURCES : Status := MAX_BIT + 9

def EVT_TIMER : Nat := 0x80000000

def EVT_NOTIFY_WAIT : Nat := 0x100

def EVT_NOTIFY_SIGNAL : Nat := 0x200

def TPL_APPLICATION : Nat := 4

def TPL_CALLBACK : Nat := 8

def TPL_NOTIFY : Nat := 16

-- EFI_TIMER_DELAY enumeration
def TimerCancel : Nat := 0

def TimerPeriodic : Nat := 1

def TimerRelative : Nat := 2

/-- The six well-known event-group GUID constants consumed from MdePkg.
They are pairwise distinct opaque identifiers; only their identity
matters to this library. -/
inductive EventGroupGuid where
  | exitBootServices
  | virtualAddressChange
  | memoryMapChange
  | readyToBoot
  | dxeDispatch
  | endOfDxe
deriving DecidableEq, Repr

def gEfiEventExitBootServicesGuid : EventGroupGuid := EventGroupGuid.exitBootServices

def gEfiEventVirtualAddressChangeGuid : EventGroupGuid := EventGroupGuid.virtualAddressChange

def gEfiEventMemoryMapChangeGuid : EventGroupGuid := EventGroupGuid.memoryMapChange

def gEfiEventReadyToBootGuid : EventGroupGuid := EventGroupGuid.readyToBoot

def gEfiEventDxeDispatchGuid : EventGroupGuid := EventGroupGuid.dxeDispatch

def gEfiEndOfDxeEventGroupGuid : EventGroupGuid := EventGroupGuid.endOfDxe

/-- One call made to the platform service provider (`gBS`). -/
inductive PlatformCall where
  | createEvent (ty tpl : Nat) (fn : NotifyFn) (ctx : Ctx)
  | createEventEx (ty tpl : Nat) (fn : NotifyFn) (ctx : Ctx) (group : Option EventGroupGuid)
  | setTimer (ev : Handle) (mode : Nat) (trigger : Nat)
  | signalEvent (ev : Handle)
  | waitForEvent (n : Nat) (evs : List Handle)
  | closeEvent (ev : Handle)
  | checkEvent (ev : Handle)
deriving DecidableEq, Repr

/-- The platform service provider: for each boot service, the status
(and out-parameter values) it returns for given arguments.  The
library is verified for an arbitrary platform; hypotheses on the
platform, where needed, are stated explicitly in the theorems. -/
structure Platform where
  createEvent : Nat → Nat → NotifyFn → Ctx → Status × Handle
  createEventEx : Nat → Nat → NotifyFn → Ctx → Option EventGroupGuid → Status × Handle
  setTimer : Handle → Nat → Nat → Status
  signalEvent : Handle → Status
  waitForEvent : Nat → List Handle → Status × Nat
  closeEvent : Handle → Status
  checkEvent : Handle → Status

/-- Number of `closeEvent` calls on handle `ev` in a trace. -/
def numCloseCalls (ev : Handle) (t : List PlatformCall) : Nat :=
  (t.filter fun c =>
    match c with
    | PlatformCall.closeEvent e => e == ev
    | _ => false).length

/-- `EfiCreateEvent` (EfiEventLib.c, lines 39-64): calls
`gBS->CreateEvent` and forces the handle to `NULL` when the returned
status is an error. -/
def EfiCreateEvent (P : Platform) (EvtType NotifyTpl : Nat) (NotifyFunction : NotifyFn)
    (NotifyContext : Ctx) : Handle × List PlatformCall :=
  let r := P.createEvent EvtType NotifyTpl NotifyFunction NotifyContext
  let event := if EFI_ERROR r.1 then 0 else r.2
  (event, [PlatformCall.createEvent EvtType NotifyTpl NotifyFunction NotifyContext])

/-- `EfiCreateEventEx` (lines 84-111): calls `gBS->CreateEventEx` and
forces the handle to `NULL` when the returned status is an error. -/
def EfiCreateEventEx (P : Platform) (EvtType NotifyTpl : Nat) (NotifyFunction : NotifyFn)
    (NotifyContext : Ctx) (EventGroup : Option EventGroupGuid) : Handle × List PlatformCall :=
  let r := P.createEventEx EvtType NotifyTpl NotifyFunction NotifyContext EventGroup
  let event := if EFI_ERROR r.1 then 0 else r.2
  (event, [PlatformCall.createEventEx EvtType NotifyTpl NotifyFunction NotifyContext EventGroup])

/-- `EfiSetTimer` (lines 128-146): calls `gBS->SetTimer` and returns
its status. -/
def EfiSetTimer (P : Platform) (Event : Handle) (TimerType TriggerTime : Nat) :
    Status × List PlatformCall :=
  (P.setTimer Event TimerType TriggerTime, [PlatformCall.setTimer Event TimerType TriggerTime])

/-- `EfiSignalEvent` (lines 155-170): calls `gBS->SignalEvent` and
returns its status. -/
def EfiSignalEvent (P : Platform) (Event : Handle) : Status × List PlatformCall :=
  (P.signalEvent Event, [PlatformCall.signalEvent Event])

/-- `EfiWaitForEvent` (lines 185-204): calls `gBS->WaitForEvent` and
returns its status; the satisfied index is the platform's out
parameter. -/
def EfiWaitForEvent (P : Platform) (NumberOfEvents : Nat) (Event : List Handle) :
    (Status × Nat) × List PlatformCall :=
  (P.waitForEvent NumberOfEvents Event, [PlatformCall.waitForEvent NumberOfEvents Event])

/-- `EfiCloseEvent` (lines 213-228): calls `gBS->CloseEvent` and
returns its status. -/
def EfiCloseEvent (P : Platform) (Event : Handle) : Status × List PlatformCall :=
  (P.closeEvent Event, [PlatformCall.closeEvent Event])

/-- `EfiCheckEvent` (lines 239-256): calls `gBS->CheckEvent` and
returns its status (the debug assertion is skipped for
`EFI_NOT_READY`, but the status is returned unchanged either way). -/
def EfiCheckEvent (P : Platform) (Event : Handle) : Status × List PlatformCall :=
  (P.checkEvent Event, [PlatformCall.checkEvent Event])

/-- `CreateTimerEvent` (lines 259-296): when `NotifyTpl < TPL_CALLBACK`,
creates a timer event (with `EVT_NOTIFY_SIGNAL` added when a callback
is supplied), then arms it; when arming fails the event is closed and
`NULL` is returned.  Otherwise returns `NULL` without any platform
call. -/
def CreateTimerEvent (P : Platform) (NotifyFunction : NotifyFn) (NotifyContext : Ctx)
    (TriggerTime : Nat) (SignalPeriodic : Bool) (NotifyTpl : Nat) :
    Handle × List PlatformCall :=
  if NotifyTpl < TPL_CALLBACK then
    let c := EfiCreateEvent P
      (if NotifyFunction ≠ 0 then EVT_TIMER ||| EVT_NOTIFY_SIGNAL else EVT_TIMER)
      NotifyTpl NotifyFunction NotifyContext
    if c.1 ≠ 0 then
      let s := EfiSetTimer P c.1 (if SignalPeriodic then TimerPeriodic else TimerRelative)
        TriggerTime
      if EFI_ERROR s.1 then
        let cl := EfiCloseEvent P c.1
        (0, c.2 ++ s.2 ++ cl.2)
      else
        (c.1, c.2 ++ s.2)
    else
      (c.1, c.2)
  else
    (0, [])

/-- `CreateNotifyEvent` (lines 299-308): `CreateTimerEvent` bound to
`TPL_NOTIFY`. -/
def CreateNotifyEvent (P : Platform) (NotifyFunction : NotifyFn) (NotifyContext : Ctx)
    (TriggerTime : Nat) (SignalPeriodic : Bool) : Handle × List PlatformCall :=
  CreateTimerEvent P NotifyFunction NotifyContext TriggerTime SignalPeriodic TPL_NOTIFY

/-- `CancelTimer` (lines 311-317): `EfiSetTimer` with `TimerCancel`
and trigger 0. -/
def CancelTimer (P : Platform) (Event : Handle) : Status × List PlatformCall :=
  EfiSetTimer P Event TimerCancel 0

/-- `CancelEvent` (lines 320-332): cancels the timer and closes the
event only when cancellation succeeded.  The C function returns
`VOID`; the embedding returns the trace. -/
def CancelEvent (P : Platform) (Event : Handle) : List PlatformCall :=
  let s := CancelTimer P Event
  if EFI_ERROR s.1 then s.2 else s.2 ++ (EfiCloseEvent P Event).2

/-- `CreateSignalEvent` (lines 335-349): `EfiCreateEventEx` bound to
`EVT_NOTIFY_SIGNAL` and `TPL_NOTIFY`. -/
def CreateSignalEvent (P : Platform) (NotifyFunction : NotifyFn) (NotifyContext : Ctx)
    (EventGroup : Option EventGroupGuid) : Handle × List PlatformCall :=
  EfiCreateEventEx P EVT_NOTIFY_SIGNAL TPL_NOTIFY NotifyFunction NotifyContext EventGroup

/-- `CreateExitBootServicesEvent` (lines 352-363). -/
def CreateExitBootServicesEvent (P : Platform) (NotifyFunction : NotifyFn)
    (NotifyContext : Ctx) : Handle × List PlatformCall :=
  CreateSignalEvent P NotifyFunction NotifyContext (some gEfiEventExitBootServicesGuid)

/-- `CreateVirtualAddressChangeEvent` (lines 366-377). -/
def CreateVirtualAddressChangeEvent (P : Platform) (NotifyFunction : NotifyFn)
    (NotifyContext : Ctx) : Handle × List PlatformCall :=
  CreateSignalEvent P NotifyFunction NotifyContext (some gEfiEventVirtualAddressChangeGuid)

/-- `CreateMemoryMapChangeEvent` (lines 380-391). -/
def CreateMemoryMapChangeEvent (P : Platform) (NotifyFunction : NotifyFn)
    (NotifyContext : Ctx) : Handle × List PlatformCall :=
  CreateSignalEvent P NotifyFunction NotifyContext (some gEfiEventMemoryMapChangeGuid)

/-- `CreateReadyToBootEvent` (lines 394-405). -/
def CreateReadyToBootEvent (P : Platform) (NotifyFunction : NotifyFn)
    (NotifyContext : Ctx) : Handle × List PlatformCall :=
  CreateSignalEvent P NotifyFunction NotifyContext (some gEfiEventReadyToBootGuid)

/-- `CreateDxeDispatchGuidEvent` (lines 408-419). -/
def CreateDxeDispatchGuidEvent (P : Platform) (NotifyFunction : NotifyFn)
    (NotifyContext : Ctx) : Handle × List PlatformCall :=
  CreateSignalEvent P NotifyFunction NotifyContext (some gEfiEventDxeDispatchGuid)

/-- `CreateEndOfDxeEvent` (lines 422-433). -/
def CreateEndOfDxeEvent (P : Platform) (NotifyFunction : NotifyFn)
    (NotifyContext : Ctx) : Handle × List PlatformCall :=
  CreateSignalEvent P NotifyFunction NotifyContext (some gEfiEndOfDxeEventGroupGuid)

/-- A platform stub on which every service succeeds; `CreateEvent` and
`CreateEventEx` return handle 1, and `CreateEventEx` with a null group
behaves exactly like `CreateEvent` (the documented UEFI contract). -/
def okPlatform : Platform where
  createEvent := fun _ _ _ _ => (EFI_SUCCESS, 1)
  createEventEx := fun _ _ _ _ _ => (EFI_SUCCESS, 1)
  setTimer := fun _ _ _ => EFI_SUCCESS
  signalEvent := fun _ => EFI_SUCCESS
  waitForEvent := fun _ _ => (EFI_SUCCESS, 0)
  closeEvent := fun _ => EFI_SUCCESS
  checkEvent := fun _ => EFI_SUCCESS

/-- A fault-injected platform stub: event creation succeeds (handle 1)
but every `SetTimer` call fails with `EFI_INVALID_PARAMETER`. -/
def failArmPlatform : Platform where
  createEvent := fun _ _ _ _ => (EFI_SUCCESS, 1)
  createEventEx := fun _ _ _ _ _ => (EFI_SUCCESS, 1)
  setTimer := fun _ _ _ => EFI_INVALID_PARAMETER
  signalEvent := fun _ => EFI_SUCCESS
  waitForEvent := fun _ _ => (EFI_SUCCESS, 0)
  closeEvent := fun _ => EFI_SUCCESS
  checkEvent := fun _ => EFI_SUCCESS

lemma numCloseCalls_append (ev : Handle) (t1 t2 : List PlatformCall) :
    numCloseCalls ev (t1 ++ t2) = numCloseCalls ev t1 + numCloseCalls ev t2 := by
  simp [numCloseCalls, List.filter_append]

/-- C2: for every callback, context, trigger interval and periodic
flag, `CreateTimerEvent` requested with `NotifyTpl` at or above
`TPL_CALLBACK` returns `NULL`, regardless of the other arguments. -/
theorem createTimerEvent_high_tpl_returns_null (P : Platform) (fn : NotifyFn) (ctx : Ctx)
    (trigger : Nat) (periodic : Bool) (tpl : Nat) (h : TPL_CALLBACK ≤ tpl) :
    (CreateTimerEvent P fn ctx trigger periodic tpl).1 = 0 := by
  unfold CreateTimerEvent
  rw [if_neg (by omega)]

theorem createTimerEvent_high_tpl_returns_null_witness :
    (CreateTimerEvent okPlatform 1 2 100 true TPL_CALLBACK).1 = 0 :=
  createTimerEvent_high_tpl_returns_null okPlatform 1 2 100 true TPL_CALLBACK (by decide)

/-- C3: for every input, `CreateNotifyEvent` returns `NULL` and
performs no platform call, because it binds `CreateTimerEvent` to
`TPL_NOTIFY` and `TPL_NOTIFY` is not strictly below `TPL_CALLBACK`. -/
theorem createNotifyEvent_returns_null_no_calls (P : Platform) (fn : NotifyFn) (ctx : Ctx)
    (trigger : Nat) (periodic : Bool) :
    CreateNotifyEvent P fn ctx trigger periodic = (0, []) := by
  unfold CreateNotifyEvent CreateTimerEvent
  rw [if_neg (by decide)]

/-- C9: for every handle, `CancelTimer` performs exactly one arming
call, with mode `TimerCancel` and trigger 0, returns the status of
that call, and never closes the handle. -/
theorem cancelTimer_single_cancel_arm_no_close (P : Platform) (ev : Handle) :
    (CancelTimer P ev).1 = P.setTimer ev TimerCancel 0 ∧
    (CancelTimer P ev).2 = [PlatformCall.setTimer ev TimerCancel 0] ∧
    ∀ h : Handle, numCloseCalls h (CancelTimer P ev).2 = 0 :=
  ⟨rfl, rfl, fun _ => rfl⟩

/-- C7: every status-returning adapter (`EfiSetTimer`,
`EfiSignalEvent`, `EfiWaitForEvent`, `EfiCloseEvent`, `EfiCheckEvent`)
returns the platform status unchanged; in particular `EfiCheckEvent`
returns `EFI_NOT_READY` as-is when the event is unsignaled and
`EFI_SUCCESS` as-is when it is signaled, never converting not-ready
into anything else. -/
theorem adapter_status_propagation (P : Platform) (ev : Handle) (mode trig n : Nat)
    (evs : List Handle) :
    (EfiSetTimer P ev mode trig).1 = P.setTimer ev mode trig ∧
    (EfiSignalEvent P ev).1 = P.signalEvent ev ∧
    (EfiWaitForEvent P n evs).1.1 = (P.waitForEvent n evs).1 ∧
    (EfiCloseEvent P ev).1 = P.closeEvent ev ∧
    (EfiCheckEvent P ev).1 = P.checkEvent ev ∧
    (P.checkEvent ev = EFI_NOT_READY → (EfiCheckEvent P ev).1 = EFI_NOT_READY) ∧
    (P.checkEvent ev = EFI_SUCCESS → (EfiCheckEvent P ev).1 = EFI_SUCCESS) :=
  ⟨rfl, rfl, rfl, rfl, rfl, fun h => h, fun h => h⟩

theorem adapter_status_propagation_witness :
    (EfiSetTimer okPlatform 1 TimerRelative 0).1 = okPlatform.setTimer 1 TimerRelative 0 ∧
    (EfiSignalEvent okPlatform 1).1 = okPlatform.signalEvent 1 ∧
    (EfiWaitForEvent okPlatform 1 [1]).1.1 = (okPlatform.waitForEvent 1 [1]).1 ∧
    (EfiCloseEvent okPlatform 1).1 = okPlatform.closeEvent 1 ∧
    (EfiCheckEvent okPlatform 1).1 = okPlatform.checkEvent 1 ∧
    (okPlatform.checkEvent 1 = EFI_NOT_READY → (EfiCheckEvent okPlatform 1).1 = EFI_NOT_READY) ∧
    (okPlatform.checkEvent 1 = EFI_SUCCESS → (EfiCheckEvent okPlatform 1).1 = EFI_SUCCESS) :=
  adapter_status_propagation okPlatform 1 TimerRelative 0 1 [1]

/-- C10: each of the six milestone subscriber constructors routes
through `CreateSignalEvent` with exactly its documented well-known
group GUID constant, and hence performs exactly one `CreateEventEx`
platform call with `EVT_NOTIFY_SIGNAL` type, `TPL_NOTIFY` priority and
that group. -/
theorem milestone_constructors_bind_group_guids (P : Platform) (fn : NotifyFn) (ctx : Ctx) :
    (CreateExitBootServicesEvent P fn ctx =
        CreateSignalEvent P fn ctx (some gEfiEventExitBootServicesGuid) ∧
      (CreateExitBootServicesEvent P fn ctx).2 =
        [PlatformCall.createEventEx EVT_NOTIFY_SIGNAL TPL_NOTIFY fn ctx
          (some gEfiEventExitBootServicesGuid)]) ∧
    (CreateVirtualAddressChangeEvent P fn ctx =
        CreateSignalEvent P fn ctx (some gEfiEventVirtualAddressChangeGuid) ∧
      (CreateVirtualAddressChangeEvent P fn ctx).2 =
        [PlatformCall.createEventEx EVT_NOTIFY_SIGNAL TPL_NOTIFY fn ctx
          (some gEfiEventVirtualAddressChangeGuid)]) ∧
    (CreateMemoryMapChangeEvent P fn ctx =
        CreateSignalEvent P fn ctx (some gEfiEventMemoryMapChangeGuid) ∧
      (CreateMemoryMapChangeEvent P fn ctx).2 =
        [PlatformCall.createEventEx EVT_NOTIFY_SIGNAL TPL_NOTIFY fn ctx
          (some gEfiEventMemoryMapChangeGuid)]) ∧
    (CreateReadyToBootEvent P fn ctx =
        CreateSignalEvent P fn ctx (some gEfiEventReadyToBootGuid) ∧
      (CreateReadyToBootEvent P fn ctx).2 =
        [PlatformCall.createEventEx EVT_NOTIFY_SIGNAL TPL_NOTIFY fn ctx
          (some gEfiEventReadyToBootGuid)]) ∧
    (CreateDxeDispatchGuidEvent P fn ctx =
        CreateSignalEvent P fn ctx (some gEfiEventDxeDispatchGuid) ∧
      (CreateDxeDispatchGuidEvent P fn ctx).2 =
        [PlatformCall.createEventEx EVT_NOTIFY_SIGNAL TPL_NOTIFY fn ctx
          (some gEfiEventDxeDispatchGuid)]) ∧
    (CreateEndOfDxeEvent P fn ctx =
        CreateSignalEvent P fn ctx (some gEfiEndOfDxeEventGroupGuid) ∧
      (CreateEndOfDxeEvent P fn ctx).2 =
        [PlatformCall.createEventEx EVT_NOTIFY_SIGNAL TPL_NOTIFY fn ctx
          (some gEfiEndOfDxeEventGroupGuid)]) :=
  ⟨⟨rfl, rfl⟩, ⟨rfl, rfl⟩, ⟨rfl, rfl⟩, ⟨rfl, rfl⟩, ⟨rfl, rfl⟩, ⟨rfl, rfl⟩⟩

/-- C1: if `CreateTimerEvent` successfully creates the event but the
subsequent `EfiSetTimer` call fails, the created event is closed
exactly once and `CreateTimerEvent` returns `NULL`. -/
theorem createTimerEvent_arm_failure_closes_once
    (P : Platform) (fn : NotifyFn) (ctx : Ctx) (trigger : Nat) (periodic : Bool) (tpl : Nat)
    (htpl : tpl < TPL_CALLBACK)
    (hcreated : (EfiCreateEvent P
        (if fn ≠ 0 then EVT_TIMER ||| EVT_NOTIFY_SIGNAL else EVT_TIMER) tpl fn ctx).1 ≠ 0)
    (harm : EFI_ERROR (EfiSetTimer P
        (EfiCreateEvent P (if fn ≠ 0 then EVT_TIMER ||| EVT_NOTIFY_SIGNAL else EVT_TIMER)
          tpl fn ctx).1
        (if periodic then TimerPeriodic else TimerRelative) trigger).1 = true) :
    (CreateTimerEvent P fn ctx trigger periodic tpl).1 = 0 ∧
    numCloseCalls
      (EfiCreateEvent P (if fn ≠ 0 then EVT_TIMER ||| EVT_NOTIFY_SIGNAL else EVT_TIMER)
        tpl fn ctx).1
      (CreateTimerEvent P fn ctx trigger periodic tpl).2 = 1 := by
  unfold CreateTimerEvent
  rw [if_pos htpl, if_pos hcreated, if_pos harm]
  refine ⟨rfl, ?_⟩
  rw [numCloseCalls_append, numCloseCalls_append]
  simp [numCloseCalls, EfiCreateEvent, EfiSetTimer, EfiCloseEvent]

theorem createTimerEvent_arm_failure_closes_once_witness :
    (CreateTimerEvent failArmPlatform 0 0 0 false TPL_APPLICATION).1 = 0 ∧
    numCloseCalls
      (EfiCreateEvent failArmPlatform
        (if (0 : NotifyFn) ≠ 0 then EVT_TIMER ||| EVT_NOTIFY_SIGNAL else EVT_TIMER)
        TPL_APPLICATION 0 0).1
      (CreateTimerEvent failArmPlatform 0 0 0 false TPL_APPLICATION).2 = 1 :=
  createTimerEvent_arm_failure_closes_once failArmPlatform 0 0 0 false TPL_APPLICATION
    (by decide) (by decide) (by decide)

/-- C4: `CancelEvent` invokes `EfiCloseEvent` on the handle (exactly
once) if and only if the `CancelTimer` call succeeds; when
cancellation fails no close call at all is made.  The count of close
calls on any handle `h` is 1 exactly when cancellation succeeded and
`h` is the cancelled handle, and 0 otherwise. -/
theorem cancelEvent_closes_iff_cancel_succeeds (P : Platform) (ev h : Handle) :
    numCloseCalls h (CancelEvent P ev) =
      if EFI_ERROR (CancelTimer P ev).1 = false ∧ h = ev then 1 else 0 := by
  unfold CancelEvent
  by_cases herr : EFI_ERROR (CancelTimer P ev).1 = true
  · rw [if_pos herr, if_neg (by simp [herr])]
    rfl
  · rw [if_neg herr, numCloseCalls_append]
    by_cases hh : h = ev
    · subst hh
      rw [if_pos ⟨by simpa using herr, rfl⟩]
      simp [numCloseCalls, CancelTimer, EfiSetTimer, EfiCloseEvent]
    · rw [if_neg (by simp [hh])]
      simp [numCloseCalls, CancelTimer, EfiSetTimer, EfiCloseEvent, hh, Ne.symm hh]

/-- C5: `EfiCreateEvent` returns a non-null handle exactly when the
platform `CreateEvent` call succeeds (given the platform contract that
a successful `CreateEvent` writes a non-null handle), and on platform
failure the handle is forced to `NULL` even if the platform wrote a
non-null value. -/
theorem efiCreateEvent_handle_iff_platform_success (P : Platform) (ty tpl : Nat)
    (fn : NotifyFn) (ctx : Ctx)
    (hplat : EFI_ERROR (P.createEvent ty tpl fn ctx).1 = false →
      (P.createEvent ty tpl fn ctx).2 ≠ 0) :
    ((EfiCreateEvent P ty tpl fn ctx).1 ≠ 0 ↔
      EFI_ERROR (P.createEvent ty tpl fn ctx).1 = false) ∧
    (EFI_ERROR (P.createEvent ty tpl fn ctx).1 = true →
      (EfiCreateEvent P ty tpl fn ctx).1 = 0) := by
  have hdef : (EfiCreateEvent P ty tpl fn ctx).1 =
      if EFI_ERROR (P.createEvent ty tpl fn ctx).1 = true then 0
      else (P.createEvent ty tpl fn ctx).2 := rfl
  by_cases herr : EFI_ERROR (P.createEvent ty tpl fn ctx).1 = true
  · rw [hdef, if_pos herr]
    constructor
    · simp [herr]
    · intro
      rfl
  · have hfalse : EFI_ERROR (P.createEvent ty tpl fn ctx).1 = false := by
      simpa using herr
    rw [hdef, if_neg herr]
    exact ⟨⟨fun _ => hfalse, fun _ => hplat hfalse⟩, fun hcontr => absurd hcontr herr⟩

theorem efiCreateEvent_handle_iff_platform_success_witness :
    ((EfiCreateEvent okPlatform EVT_TIMER TPL_APPLICATION 0 0).1 ≠ 0 ↔
      EFI_ERROR (okPlatform.createEvent EVT_TIMER TPL_APPLICATION 0 0).1 = false) ∧
    (EFI_ERROR (okPlatform.createEvent EVT_TIMER TPL_APPLICATION 0 0).1 = true →
      (EfiCreateEvent okPlatform EVT_TIMER TPL_APPLICATION 0 0).1 = 0) :=
  efiCreateEvent_handle_iff_platform_success okPlatform EVT_TIMER TPL_APPLICATION 0 0
    (by decide)

/-- C6: `EfiCreateEventEx` called with a null event group returns the
same handle as `EfiCreateEvent` with the same arguments, given the
documented platform contract that `CreateEventEx` with a null group
behaves as `CreateEvent`. -/
theorem efiCreateEventEx_null_group_eq_efiCreateEvent (P : Platform) (ty tpl : Nat)
    (fn : NotifyFn) (ctx : Ctx)
    (hP : P.createEventEx ty tpl fn ctx none = P.createEvent ty tpl fn ctx) :
    (EfiCreateEventEx P ty tpl fn ctx none).1 = (EfiCreateEvent P ty tpl fn ctx).1 := by
  unfold EfiCreateEventEx EfiCreateEvent
  rw [hP]

theorem efiCreateEventEx_null_group_eq_efiCreateEvent_witness :
    (EfiCreateEventEx okPlatform EVT_TIMER TPL_APPLICATION 1 2 none).1 =
      (EfiCreateEvent okPlatform EVT_TIMER TPL_APPLICATION 1 2).1 :=
  efiCreateEventEx_null_group_eq_efiCreateEvent okPlatform EVT_TIMER TPL_APPLICATION 1 2
    (by decide)

/-- C8: for every input with `NotifyTpl` strictly below `TPL_CALLBACK`,
`CreateTimerEvent` first creates an event with type `EVT_TIMER` when
the callback is null and `EVT_TIMER ||| EVT_NOTIFY_SIGNAL` when it is
non-null, and on successful creation its second platform call arms the
event with `TimerPeriodic` when the periodic flag is set and
`TimerRelative` otherwise, at the requested trigger time. -/
theorem createTimerEvent_type_flags_and_arming
    (P : Platform) (fn : NotifyFn) (ctx : Ctx) (trigger : Nat) (periodic : Bool) (tpl : Nat)
    (htpl : tpl < TPL_CALLBACK) :
    (CreateTimerEvent P fn ctx trigger periodic tpl).2.head? =
      some (PlatformCall.createEvent
        (if fn ≠ 0 then EVT_TIMER ||| EVT_NOTIFY_SIGNAL else EVT_TIMER) tpl fn ctx) ∧
    ((EfiCreateEvent P (if fn ≠ 0 then EVT_TIMER ||| EVT_NOTIFY_SIGNAL else EVT_TIMER)
        tpl fn ctx).1 ≠ 0 →
      (CreateTimerEvent P fn ctx trigger periodic tpl).2.tail.head? =
        some (PlatformCall.setTimer
          (EfiCreateEvent P (if fn ≠ 0 then EVT_TIMER ||| EVT_NOTIFY_SIGNAL else EVT_TIMER)
            tpl fn ctx).1
          (if periodic then TimerPeriodic else TimerRelative) trigger)) := by
  unfold CreateTimerEvent
  rw [if_pos htpl]
  by_cases hcreated : (EfiCreateEvent P
      (if fn ≠ 0 then EVT_TIMER ||| EVT_NOTIFY_SIGNAL else EVT_TIMER) tpl fn ctx).1 ≠ 0
  · rw [if_pos hcreated]
    by_cases harm : EFI_ERROR (EfiSetTimer P
        (EfiCreateEvent P (if fn ≠ 0 then EVT_TIMER ||| EVT_NOTIFY_SIGNAL else EVT_TIMER)
          tpl fn ctx).1
        (if periodic then TimerPeriodic else TimerRelative) trigger).1 = true
    · rw [if_pos harm]
      exact ⟨rfl, fun _ => rfl⟩
    · rw [if_neg harm]
      exact ⟨rfl, fun _ => rfl⟩
  · rw [if_neg hcreated]
    exact ⟨rfl, fun hcontr => absurd hcontr hcreated⟩

theorem createTimerEvent_type_flags_and_arming_witness :
    (CreateTimerEvent okPlatform 1 2 5 true TPL_APPLICATION).2.head? =
      some (PlatformCall.createEvent
        (if (1 : NotifyFn) ≠ 0 then EVT_TIMER ||| EVT_NOTIFY_SIGNAL else EVT_TIMER)
        TPL_APPLICATION 1 2) ∧
    ((EfiCreateEvent okPlatform
        (if (1 : NotifyFn) ≠ 0 then EVT_TIMER ||| EVT_NOTIFY_SIGNAL else EVT_TIMER)
        TPL_APPLICATION 1 2).1 ≠ 0 →
      (CreateTimerEvent okPlatform 1 2 5 true TPL_APPLICATION).2.tail.head? =
        some (PlatformCall.setTimer
          (EfiCreateEvent okPlatform
            (if (1 : NotifyFn) ≠ 0 then EVT_TIMER ||| EVT_NOTIFY_SIGNAL else EVT_TIMER)
            TPL_APPLICATION 1 2).1
          (if true then TimerPeriodic else TimerRelative) 5)) :=
  createTimerEvent_type_flags_and_arming okPlatform 1 2 5 true TPL_APPLICATION (by decide)
